import Mathlib

/-!
Shallow embedding of the view controller in `src/frontend/src/App.js`.

The component `App` owns seven `useState` fields and six async handlers
(`fetchSignals`, `fetchAnalytics`, `extractSignal`, `clearAllSignals`,
`deleteSignal`, `exportData`).  Each handler is embedded as a pure function
from the current view state and the responses the remote store would give
(passed in as explicit oracle arguments, since the backend is outside this
repository) to the final view state together with the ordered trace of
observable effects: HTTP requests issued, `alert` calls, `console.error`
calls and local file saves.  Awaited calls run sequentially in JavaScript,
so sequential composition of these functions is the execution order.
-/

/-- A stored trading signal (App.js renders `signal.id`, `signal.symbol`,
    `signal.action`, …).  The claims treat signals opaquely, so only the
    identifying fields are carried; the numeric presentation-only fields
    (entry, tp1–tp3, sl, quality_score, …) play no role in any claim. -/
structure Signal where
  id : String
  symbol : String
  action : String
deriving DecidableEq, Repr

/-- The analytics snapshot (`GET /api/analytics` body).  The view never
    inspects it in any claimed behaviour, only replaces it wholesale
    (`setAnalytics(data)`), so the aggregate count fields suffice. -/
structure Analytics where
  total_signals : Nat
  buy_signals : Nat
  sell_signals : Nat
deriving DecidableEq, Repr

/-- HTTP methods used by App.js. -/
inductive Method where
  | GET
  | POST
  | DELETE
deriving DecidableEq, Repr

/-- Observable effects of a handler, in execution order.
    `request` is an HTTP request being issued (`fetch(...)`),
    `alert` a `window.alert`, `logError` a `console.error` (first
    argument only), `saveFile` the synthesized-link download in
    `exportData`, and `opDone` marks an awaited handler call returning,
    which is the point where execution resumes after `await f()`. -/
inductive Event where
  | request (m : Method) (path : String)
  | alert (text : String)
  | logError (context : String)
  | saveFile (name : String)
  | opDone (op : String)
deriving DecidableEq, Repr

/-- The `useState` fields of `App` (App.js lines 33–39). -/
structure ViewState where
  message : String
  groupName : String
  signals : List Signal
  analytics : Option Analytics
  loading : Bool
  extracting : Bool
  activeTab : String
deriving DecidableEq, Repr

/-- The initial state of `App` (App.js lines 33–39). -/
def initialViewState : ViewState :=
  { message := ""
    groupName := "Manual Input"
    signals := []
    analytics := none
    loading := false
    extracting := false
    activeTab := "dashboard" }

/-- Outcome of an awaited `fetch` plus body parsing: `failure` when the
    network request or the body parse rejects (the `await` throws and
    control moves to the `catch` block), `ok body` when a parsed body is
    obtained.  JavaScript `fetch` does not throw on HTTP error statuses,
    so `ok` covers every received response. -/
inductive HttpResult (α : Type) where
  | failure
  | ok (body : α)
deriving DecidableEq, Repr

/-- The characters JavaScript `String.prototype.trim` removes: ASCII
    whitespace, line terminators and the Unicode space separators. -/
def isJsWhitespace (c : Char) : Bool :=
  c = ' ' || c = '\t' || c = '\n' || c = '\r' ||
  c = '\x0b' || c = '\x0c' || c = '\u00a0' ||
  c = '\u1680' ||
  ('\u2000' ≤ c && c ≤ '\u200a') ||
  c = '\u2028' || c = '\u2029' || c = '\u202f' ||
  c = '\u205f' || c = '\u3000' || c = '\ufeff'

/-- JavaScript `s.trim()`: strip leading and trailing whitespace. -/
def jsTrim (s : String) : String :=
  String.mk ((((s.data.dropWhile isJsWhitespace).reverse.dropWhile
    isJsWhitespace).reverse))

/-- JavaScript `x || d` for a string field `x` that may be absent:
    `undefined`, `null` and the empty string are falsy, so all three
    select the default. -/
def orDefault (m : Option String) (d : String) : String :=
  match m with
  | some s => if s = "" then d else s
  | none => d

/-- `fetchSignals` (App.js lines 54–62).  The parsed body's `signals`
    field may be absent or null (`none`); `data.signals || []` falls back
    to the empty list.  On a thrown transport/parse error the catch block
    only logs; no state is written. -/
def fetchSignals (st : ViewState) (resp : HttpResult (Option (List Signal))) :
    ViewState × List Event :=
  match resp with
  | .failure =>
      (st,
       [.request .GET "/api/signals",
        .logError "Error fetching signals:",
        .opDone "fetchSignals"])
  | .ok body =>
      ({ st with signals := body.getD [] },
       [.request .GET "/api/signals",
        .opDone "fetchSignals"])

/-- `setLoading(true)` at the top of `fetchAnalytics` (App.js line 65). -/
def fetchAnalyticsStart (st : ViewState) : ViewState :=
  { st with loading := true }

/-- The rest of `fetchAnalytics` after the busy flag is set (App.js
    lines 66–73): fetch and parse, on success replace the snapshot, on a
    thrown error only log; `setLoading(false)` runs after the try/catch
    on both paths. -/
def fetchAnalyticsFinish (st : ViewState) (resp : HttpResult Analytics) :
    ViewState × List Event :=
  match resp with
  | .failure =>
      ({ st with loading := false },
       [.request .GET "/api/analytics",
        .logError "Error fetching analytics:",
        .opDone "fetchAnalytics"])
  | .ok a =>
      ({ st with analytics := some a, loading := false },
       [.request .GET "/api/analytics",
        .opDone "fetchAnalytics"])

/-- `fetchAnalytics` (App.js lines 64–74). -/
def fetchAnalytics (st : ViewState) (resp : HttpResult Analytics) :
    ViewState × List Event :=
  fetchAnalyticsFinish (fetchAnalyticsStart st) resp

/-- The parsed body of `POST /api/extract-signal`: `result.success` and
    the optional `result.message` (App.js lines 92–99). -/
structure ExtractBody where
  success : Bool
  message : Option String
deriving DecidableEq, Repr

/-- `extractSignal` from the point where the awaited POST resolves
    (App.js lines 92–105): `r` is the outcome of the POST plus parse, `s`
    and `a` the bodies the two refresh fetches would obtain.  Entered
    with `extracting = true`; every exit path runs `setExtracting(false)`.
    On `success` the draft message is cleared and both refreshes run
    sequentially; on a falsy `success` the message (or its default) is
    alerted; on a thrown error a generic alert is shown. -/
def extractSignalResume (st : ViewState) (r : HttpResult ExtractBody)
    (s : HttpResult (Option (List Signal))) (a : HttpResult Analytics) :
    ViewState × List Event :=
  match r with
  | .failure =>
      ({ st with extracting := false },
       [.logError "Error extracting signal:",
        .alert "Error extracting signal"])
  | .ok body =>
      if body.success then
        let p1 := fetchSignals { st with message := "" } s
        let p2 := fetchAnalytics p1.1 a
        ({ p2.1 with extracting := false }, p1.2 ++ p2.2)
      else
        ({ st with extracting := false },
         [.alert (orDefault body.message "No valid signal found")])

/-- `extractSignal` (App.js lines 76–106).  `if (!message.trim()) return;`
    is an early exit before any flag is set or request issued; otherwise
    `setExtracting(true)` runs, the POST is issued, and the resumed
    continuation handles the outcome. -/
def extractSignal (st : ViewState) (r : HttpResult ExtractBody)
    (s : HttpResult (Option (List Signal))) (a : HttpResult Analytics) :
    ViewState × List Event :=
  if jsTrim st.message = "" then (st, [])
  else
    let p := extractSignalResume { st with extracting := true } r s a
    (p.1, .request .POST "/api/extract-signal" :: p.2)

/-- `clearAllSignals` (App.js lines 108–118).  `confirmed` is the value
    of `window.confirm(...)`; without it nothing runs.  When confirmed,
    the DELETE is issued; if its `await` throws, the catch block logs and
    the refreshes are skipped, otherwise both refreshes run sequentially. -/
def clearAllSignals (st : ViewState) (confirmed : Bool)
    (d : HttpResult Unit) (s : HttpResult (Option (List Signal)))
    (a : HttpResult Analytics) : ViewState × List Event :=
  if confirmed then
    match d with
    | .failure =>
        (st,
         [.request .DELETE "/api/signals",
          .logError "Error clearing signals:"])
    | .ok _ =>
        let p1 := fetchSignals st s
        let p2 := fetchAnalytics p1.1 a
        (p2.1, .request .DELETE "/api/signals" :: (p1.2 ++ p2.2))
  else (st, [])

/-- `exportData` (App.js lines 130–147).  On success the blob is saved
    through a synthesized link with download name `forex_signals.{format}`;
    on a thrown error the catch block logs and alerts.  No state field is
    written on either path. -/
def exportData (st : ViewState) (format : String) (r : HttpResult Unit) :
    ViewState × List Event :=
  match r with
  | .failure =>
      (st,
       [.request .GET ("/api/export/" ++ format),
        .logError ("Error exporting " ++ format ++ ":"),
        .alert ("Error exporting " ++ format)])
  | .ok _ =>
      (st,
       [.request .GET ("/api/export/" ++ format),
        .saveFile ("forex_signals." ++ format)])

/-- The `disabled` attribute of the Extract button
    (App.js line 344: `disabled={extracting || !message.trim()}`).
    A disabled button fires no `onClick`, so this is the only guard
    against re-entrant submission. -/
def extractButtonDisabled (st : ViewState) : Bool :=
  st.extracting || jsTrim st.message == ""

/-- User-driven transitions concerning the extraction operation.
    `clickExtract` is the only way `extractSignal` runs (the button's
    `onClick`, App.js line 343); `resolveExtract` is the in-flight POST
    resolving, with the outcome `r` and the two refresh-fetch bodies.
    The awaited refreshes inside the success branch are collapsed into
    the resolve step: `extracting` stays `true` throughout them (it is
    set to `false` only after both complete, App.js line 105), so no
    click can interleave there.  `editMessage` / `editGroupName` are the
    controlled inputs' `onChange` handlers (App.js lines 323, 335),
    which the spec allows while a request is outstanding. -/
inductive UiStep where
  | clickExtract
  | resolveExtract (r : HttpResult ExtractBody)
      (s : HttpResult (Option (List Signal))) (a : HttpResult Analytics)
  | editMessage (t : String)
  | editGroupName (t : String)

/-- View state together with the number of extraction POST requests
    currently outstanding (issued, not yet resolved). -/
structure MachineState where
  view : ViewState
  outstanding : Nat
deriving DecidableEq, Repr

/-- Initial machine state: `App` just mounted, no request in flight. -/
def initialMachineState : MachineState :=
  { view := initialViewState, outstanding := 0 }

/-- One step of the view/request machine.  A click on a disabled button
    does nothing; an enabled click runs `extractSignal` up to its
    `await fetch(POST ...)`: the trim guard has already passed (the
    button is enabled only when `message.trim()` is truthy), so
    `setExtracting(true)` runs and the POST becomes outstanding.
    A resolve with nothing outstanding is a no-op; otherwise the resumed
    continuation `extractSignalResume` runs to completion. -/
def uiStep (ms : MachineState) (u : UiStep) : MachineState :=
  match u with
  | .clickExtract =>
      if extractButtonDisabled ms.view then ms
      else
        { view := { ms.view with extracting := true }
          outstanding := ms.outstanding + 1 }
  | .resolveExtract r s a =>
      if ms.outstanding = 0 then ms
      else
        { view := (extractSignalResume ms.view r s a).1
          outstanding := ms.outstanding - 1 }
  | .editMessage t => { ms with view := { ms.view with message := t } }
  | .editGroupName t => { ms with view := { ms.view with groupName := t } }

/-- States reachable from the mounted component. -/
inductive Reachable : MachineState → Prop where
  | init : Reachable initialMachineState
  | step : ∀ {ms : MachineState}, Reachable ms → ∀ u : UiStep, Reachable (uiStep ms u)

/-- The inductive invariant tying the busy flag to the outstanding
    request count: `extracting` is set exactly while one extraction POST
    is outstanding. -/
def extractInFlightInv (ms : MachineState) : Prop :=
  ms.outstanding = (if ms.view.extracting then 1 else 0)

lemma extractSignalResume_extracting_false (st : ViewState)
    (r : HttpResult ExtractBody) (s : HttpResult (Option (List Signal)))
    (a : HttpResult Analytics) :
    (extractSignalResume st r s a).1.extracting = false := by
  cases r with
  | failure => rfl
  | ok body =>
    by_cases h : body.success <;> simp [extractSignalResume, h]

lemma extractInFlightInv_init : extractInFlightInv initialMachineState := by
  simp [extractInFlightInv, initialMachineState, initialViewState]

lemma extractInFlightInv_step (ms : MachineState) (u : UiStep)
    (h : extractInFlightInv ms) : extractInFlightInv (uiStep ms u) := by
  cases u with
  | clickExtract =>
    by_cases hd : extractButtonDisabled ms.view
    · simpa [uiStep, hd] using h
    · have hext : ms.view.extracting = false := by
        by_contra hc
        exact hd (by simp [extractButtonDisabled, eq_true_of_ne_false hc])
      simp [uiStep, hd, extractInFlightInv] at h ⊢
      simp [hext] at h
      simp [h]
  | resolveExtract r s a =>
    by_cases h0 : ms.outstanding = 0
    · simpa [uiStep, h0] using h
    · simp [uiStep, h0, extractInFlightInv,
        extractSignalResume_extracting_false]
      rw [extractInFlightInv] at h
      rcases hb : ms.view.extracting with _ | _
      · simp [hb] at h; exact absurd h h0
      · simp [hb] at h; simp [h]
  | editMessage t => simpa [uiStep, extractInFlightInv] using h
  | editGroupName t => simpa [uiStep, extractInFlightInv] using h

lemma reachable_extractInFlightInv (ms : MachineState) (h : Reachable ms) :
    extractInFlightInv ms := by
  induction h with
  | init => exact extractInFlightInv_init
  | step _ u ih => exact extractInFlightInv_step _ u ih

lemma fetchSignals_preserves_message (st : ViewState)
    (s : HttpResult (Option (List Signal))) :
    (fetchSignals st s).1.message = st.message := by
  cases s <;> rfl

lemma fetchSignals_preserves_groupName (st : ViewState)
    (s : HttpResult (Option (List Signal))) :
    (fetchSignals st s).1.groupName = st.groupName := by
  cases s <;> rfl

lemma fetchAnalytics_preserves_message (st : ViewState)
    (a : HttpResult Analytics) :
    (fetchAnalytics st a).1.message = st.message := by
  cases a <;> rfl

lemma fetchAnalytics_preserves_groupName (st : ViewState)
    (a : HttpResult Analytics) :
    (fetchAnalytics st a).1.groupName = st.groupName := by
  cases a <;> rfl

/-- C4: with a message that is empty or whitespace-only after trimming,
    `extractSignal` returns before touching any flag or issuing any
    request: the state is returned unchanged and the effect trace is
    empty, whatever the store would have answered. -/
theorem extractSignal_empty_draft_noop (st : ViewState)
    (h : jsTrim st.message = "") (r : HttpResult ExtractBody)
    (s : HttpResult (Option (List Signal))) (a : HttpResult Analytics) :
    extractSignal st r s a = (st, []) := by
  simp [extractSignal, h]

/-- Witness for C4 at a whitespace-only draft. -/
theorem extractSignal_empty_draft_noop_witness :
    jsTrim ({ initialViewState with message := "   " } : ViewState).message = "" ∧
    extractSignal { initialViewState with message := "   " }
        (.ok ⟨true, none⟩) (.ok (some [])) (.ok ⟨3, 2, 1⟩) =
      ({ initialViewState with message := "   " }, []) :=
  ⟨by decide, extractSignal_empty_draft_noop _ (by decide) _ _ _⟩

/-- C6: a failed `fetchSignals` leaves the entire view state — in
    particular the cached signal list — exactly as it was, while a
    successful response carrying a `signals` list replaces the cache
    with that list unconditionally. -/
theorem fetchSignals_cache_discipline (st : ViewState) (l : List Signal) :
    (fetchSignals st .failure).1 = st ∧
    (fetchSignals st (.ok (some l))).1.signals = l :=
  ⟨rfl, rfl⟩

/-- C7: `fetchAnalytics` raises the `loading` flag first, lowers it on
    both exit paths, replaces the snapshot on success and leaves it
    untouched on failure. -/
theorem fetchAnalytics_busy_flag_and_snapshot (st : ViewState) (a : Analytics) :
    (fetchAnalyticsStart st).loading = true ∧
    (fetchAnalytics st .failure).1.loading = false ∧
    (fetchAnalytics st (.ok a)).1.loading = false ∧
    (fetchAnalytics st (.ok a)).1.analytics = some a ∧
    (fetchAnalytics st .failure).1.analytics = st.analytics :=
  ⟨rfl, rfl, rfl, rfl, rfl⟩

/-- C10: a parseable success response whose body lacks the `signals`
    field (or carries a null/falsy one) makes `data.signals || []`
    produce the empty list, which replaces the cache — the prior list is
    not preserved. -/
theorem fetchSignals_missing_field_empties (st : ViewState) :
    (fetchSignals st (.ok none)).1.signals = [] :=
  rfl

/-- C3: in every reachable state at most one extraction POST is
    outstanding, and while the `extracting` flag is set a further click
    on the Extract button is a no-op (the button is disabled), so no
    second extraction request can be issued re-entrantly. -/
theorem extraction_single_flight (ms : MachineState) (h : Reachable ms) :
    ms.outstanding ≤ 1 ∧
    (ms.view.extracting = true → uiStep ms .clickExtract = ms) := by
  have hinv := reachable_extractInFlightInv ms h
  rw [extractInFlightInv] at hinv
  constructor
  · rw [hinv]; split <;> omega
  · intro hx
    simp [uiStep, extractButtonDisabled, hx]

/-- Witness for C3 at the reachable state reached by typing a draft and
    clicking Extract, where the flag is set and one POST is outstanding. -/
theorem extraction_single_flight_witness :
    (uiStep (uiStep initialMachineState (.editMessage "EURUSD BUY 1.0945"))
        .clickExtract).outstanding ≤ 1 ∧
    ((uiStep (uiStep initialMachineState (.editMessage "EURUSD BUY 1.0945"))
        .clickExtract).view.extracting = true →
      uiStep (uiStep (uiStep initialMachineState
          (.editMessage "EURUSD BUY 1.0945")) .clickExtract) .clickExtract =
      uiStep (uiStep initialMachineState (.editMessage "EURUSD BUY 1.0945"))
        .clickExtract) :=
  extraction_single_flight _
    (Reachable.step (Reachable.step Reachable.init (.editMessage "EURUSD BUY 1.0945"))
      .clickExtract)

/-- A concrete view state with a non-empty draft and a user-chosen group
    name, used to instantiate the universally quantified theorems. -/
def sampleDraftState : ViewState :=
  { initialViewState with
      message := "EURUSD BUY 1.0945 TP1=1.0980 SL=1.0920"
      groupName := "VIP Channel" }

/-- A concrete analytics snapshot for instantiations. -/
def sampleAnalytics : Analytics :=
  { total_signals := 3, buy_signals := 2, sell_signals := 1 }

/-- A concrete view state whose draft the store would reject. -/
def rejectedDraftState : ViewState :=
  { initialViewState with message := "not a trading message" }

/-- C1: with a non-empty trimmed draft, `extractSignal` issues exactly
    one POST to the extraction endpoint in every outcome; when the POST
    resolves with `success` it issues exactly one signal-list refresh and
    one analytics refresh, with the signal-list fetch issued and returned
    (`opDone`) before the analytics request appears in the trace; on a
    failure body or a thrown transport error no refresh request occurs. -/
theorem extractSignal_request_discipline (st : ViewState)
    (h : jsTrim st.message ≠ "") (m : Option String)
    (s : HttpResult (Option (List Signal))) (a : HttpResult Analytics) :
    (extractSignal st (.ok ⟨true, m⟩) s a).2.count
        (.request .POST "/api/extract-signal") = 1 ∧
    (extractSignal st (.ok ⟨false, m⟩) s a).2.count
        (.request .POST "/api/extract-signal") = 1 ∧
    (extractSignal st .failure s a).2.count
        (.request .POST "/api/extract-signal") = 1 ∧
    (extractSignal st (.ok ⟨true, m⟩) s a).2.count
        (.request .GET "/api/signals") = 1 ∧
    (extractSignal st (.ok ⟨true, m⟩) s a).2.count
        (.request .GET "/api/analytics") = 1 ∧
    (extractSignal st (.ok ⟨true, m⟩) s a).2.indexOf
        (.request .GET "/api/signals") <
      (extractSignal st (.ok ⟨true, m⟩) s a).2.indexOf
        (.request .GET "/api/analytics") ∧
    (extractSignal st (.ok ⟨true, m⟩) s a).2.indexOf
        (.opDone "fetchSignals") <
      (extractSignal st (.ok ⟨true, m⟩) s a).2.indexOf
        (.request .GET "/api/analytics") ∧
    (extractSignal st (.ok ⟨false, m⟩) s a).2.count
        (.request .GET "/api/signals") = 0 ∧
    (extractSignal st (.ok ⟨false, m⟩) s a).2.count
        (.request .GET "/api/analytics") = 0 ∧
    (extractSignal st .failure s a).2.count
        (.request .GET "/api/signals") = 0 ∧
    (extractSignal st .failure s a).2.count
        (.request .GET "/api/analytics") = 0 := by
  cases s <;> cases a <;>
    simp [extractSignal, h, extractSignalResume, fetchSignals, fetchAnalytics,
      fetchAnalyticsFinish, fetchAnalyticsStart, List.count_cons, List.count_nil,
      List.indexOf, List.findIdx, List.findIdx.go] <;>
    decide

/-- Witness for C1 at a concrete draft, success body and refresh bodies. -/
theorem extractSignal_request_discipline_witness :
    jsTrim sampleDraftState.message ≠ "" ∧
    ((extractSignal sampleDraftState (.ok ⟨true, none⟩) (.ok (some []))
        (.ok sampleAnalytics)).2.count
        (.request .POST "/api/extract-signal") = 1 ∧
    (extractSignal sampleDraftState (.ok ⟨false, none⟩) (.ok (some []))
        (.ok sampleAnalytics)).2.count
        (.request .POST "/api/extract-signal") = 1 ∧
    (extractSignal sampleDraftState .failure (.ok (some []))
        (.ok sampleAnalytics)).2.count
        (.request .POST "/api/extract-signal") = 1 ∧
    (extractSignal sampleDraftState (.ok ⟨true, none⟩) (.ok (some []))
        (.ok sampleAnalytics)).2.count
        (.request .GET "/api/signals") = 1 ∧
    (extractSignal sampleDraftState (.ok ⟨true, none⟩) (.ok (some []))
        (.ok sampleAnalytics)).2.count
        (.request .GET "/api/analytics") = 1 ∧
    (extractSignal sampleDraftState (.ok ⟨true, none⟩) (.ok (some []))
        (.ok sampleAnalytics)).2.indexOf
        (.request .GET "/api/signals") <
      (extractSignal sampleDraftState (.ok ⟨true, none⟩) (.ok (some []))
        (.ok sampleAnalytics)).2.indexOf
        (.request .GET "/api/analytics") ∧
    (extractSignal sampleDraftState (.ok ⟨true, none⟩) (.ok (some []))
        (.ok sampleAnalytics)).2.indexOf
        (.opDone "fetchSignals") <
      (extractSignal sampleDraftState (.ok ⟨true, none⟩) (.ok (some []))
        (.ok sampleAnalytics)).2.indexOf
        (.request .GET "/api/analytics") ∧
    (extractSignal sampleDraftState (.ok ⟨false, none⟩) (.ok (some []))
        (.ok sampleAnalytics)).2.count
        (.request .GET "/api/signals") = 0 ∧
    (extractSignal sampleDraftState (.ok ⟨false, none⟩) (.ok (some []))
        (.ok sampleAnalytics)).2.count
        (.request .GET "/api/analytics") = 0 ∧
    (extractSignal sampleDraftState .failure (.ok (some []))
        (.ok sampleAnalytics)).2.count
        (.request .GET "/api/signals") = 0 ∧
    (extractSignal sampleDraftState .failure (.ok (some []))
        (.ok sampleAnalytics)).2.count
        (.request .GET "/api/analytics") = 0) :=
  ⟨by decide, extractSignal_request_discipline sampleDraftState (by decide)
    none (.ok (some [])) (.ok sampleAnalytics)⟩

/-- Counterexample to C2: on a success response `extractSignal` runs only
    `setMessage('')` (App.js line 95); the group-name text survives.  At a
    state whose group name is "VIP Channel" the post-submission group name
    is still "VIP Channel", which is neither empty nor the initial
    "Manual Input", so the draft is not cleared in its entirety. -/
theorem extractSignal_groupName_not_cleared_cex :
    (extractSignal sampleDraftState (.ok ⟨true, none⟩) (.ok (some []))
        (.ok sampleAnalytics)).1.groupName = "VIP Channel" ∧
    "VIP Channel" ≠ "" ∧ "VIP Channel" ≠ "Manual Input" := by
  decide

/-- C2 (amended): on a success response `extractSignal` clears the draft
    message text, but the group-name text is preserved unchanged. -/
theorem extractSignal_success_clears_message_only (st : ViewState)
    (h : jsTrim st.message ≠ "") (m : Option String)
    (s : HttpResult (Option (List Signal))) (a : HttpResult Analytics) :
    (extractSignal st (.ok ⟨true, m⟩) s a).1.message = "" ∧
    (extractSignal st (.ok ⟨true, m⟩) s a).1.groupName = st.groupName := by
  constructor <;>
    simp [extractSignal, h, extractSignalResume, fetchSignals_preserves_message,
      fetchSignals_preserves_groupName, fetchAnalytics_preserves_message,
      fetchAnalytics_preserves_groupName]

/-- Witness for amended C2 at a concrete draft and group name. -/
theorem extractSignal_success_clears_message_only_witness :
    jsTrim sampleDraftState.message ≠ "" ∧
    ((extractSignal sampleDraftState (.ok ⟨true, none⟩) (.ok (some []))
        (.ok sampleAnalytics)).1.message = "" ∧
     (extractSignal sampleDraftState (.ok ⟨true, none⟩) (.ok (some []))
        (.ok sampleAnalytics)).1.groupName = sampleDraftState.groupName) :=
  ⟨by decide, extractSignal_success_clears_message_only sampleDraftState
    (by decide) none (.ok (some [])) (.ok sampleAnalytics)⟩

/-- Counterexample to C5: `alert(result.message || 'No valid signal
    found')` (App.js line 99) replaces a falsy store message.  When the
    store answers `success:false` with the provided message `""`, the
    alert text is the default "No valid signal found", not the provided
    message verbatim. -/
theorem extractSignal_empty_store_message_cex :
    (extractSignal rejectedDraftState (.ok ⟨false, some ""⟩) (.ok (some []))
        (.ok sampleAnalytics)).2 =
      [.request .POST "/api/extract-signal",
       .alert "No valid signal found"] ∧
    "No valid signal found" ≠ "" := by
  decide

/-- C5 (amended): on a `success:false` response the draft message and
    group name are preserved and exactly one alert is raised, whose text
    is the store message when that is present and non-empty and the
    default "No valid signal found" otherwise; in particular a provided
    non-empty message (such as "No valid signal found" itself) is
    surfaced verbatim. -/
theorem extractSignal_failure_surfaces_message (st : ViewState)
    (h : jsTrim st.message ≠ "") (t : String) (ht : t ≠ "")
    (m : Option String) (s : HttpResult (Option (List Signal)))
    (a : HttpResult Analytics) :
    (extractSignal st (.ok ⟨false, m⟩) s a).1.message = st.message ∧
    (extractSignal st (.ok ⟨false, m⟩) s a).1.groupName = st.groupName ∧
    (extractSignal st (.ok ⟨false, m⟩) s a).2 =
      [.request .POST "/api/extract-signal",
       .alert (orDefault m "No valid signal found")] ∧
    orDefault (some t) "No valid signal found" = t := by
  refine ⟨?_, ?_, ?_, ?_⟩ <;>
    simp [extractSignal, h, extractSignalResume, orDefault, ht]

/-- Witness for amended C5 at the spec's scenario: draft "not a trading
    message", store answer `success:false` with message "No valid signal
    found". -/
theorem extractSignal_failure_surfaces_message_witness :
    jsTrim rejectedDraftState.message ≠ "" ∧
    "No valid signal found" ≠ "" ∧
    ((extractSignal rejectedDraftState
        (.ok ⟨false, some "No valid signal found"⟩) (.ok (some []))
        (.ok sampleAnalytics)).1.message = rejectedDraftState.message ∧
     (extractSignal rejectedDraftState
        (.ok ⟨false, some "No valid signal found"⟩) (.ok (some []))
        (.ok sampleAnalytics)).1.groupName = rejectedDraftState.groupName ∧
     (extractSignal rejectedDraftState
        (.ok ⟨false, some "No valid signal found"⟩) (.ok (some []))
        (.ok sampleAnalytics)).2 =
       [.request .POST "/api/extract-signal",
        .alert (orDefault (some "No valid signal found")
          "No valid signal found")] ∧
     orDefault (some "No valid signal found") "No valid signal found" =
       "No valid signal found") :=
  ⟨by decide, by decide,
   extractSignal_failure_surfaces_message rejectedDraftState (by decide)
     "No valid signal found" (by decide) (some "No valid signal found")
     (.ok (some [])) (.ok sampleAnalytics)⟩

/-- Counterexample to C8: when the user confirms but the awaited DELETE
    throws (transport failure), the catch block (App.js lines 114–116)
    only logs — the DELETE was issued but neither refresh request is,
    contradicting the unconditional "and then refreshes both". -/
theorem clearAllSignals_delete_failure_cex :
    (clearAllSignals initialViewState true .failure (.ok (some []))
        (.ok sampleAnalytics)).2 =
      [.request .DELETE "/api/signals",
       .logError "Error clearing signals:"] ∧
    (clearAllSignals initialViewState true .failure (.ok (some []))
        (.ok sampleAnalytics)).2.count (.request .GET "/api/signals") = 0 ∧
    (clearAllSignals initialViewState true .failure (.ok (some []))
        (.ok sampleAnalytics)).2.count (.request .GET "/api/analytics") = 0 := by
  decide

/-- C8 (amended): without confirmation `clearAllSignals` issues no
    request and changes nothing; with confirmation it issues exactly one
    DELETE of all signals, and when that DELETE resolves it refreshes the
    signal list and then the analytics snapshot (one GET each, in that
    order after the DELETE); when the DELETE fails in transport, the
    refreshes are skipped. -/
theorem clearAllSignals_confirm_behavior (st : ViewState)
    (d : HttpResult Unit) (s : HttpResult (Option (List Signal)))
    (a : HttpResult Analytics) :
    clearAllSignals st false d s a = (st, []) ∧
    (clearAllSignals st true (.ok ()) s a).2.count
        (.request .DELETE "/api/signals") = 1 ∧
    (clearAllSignals st true (.ok ()) s a).2.count
        (.request .GET "/api/signals") = 1 ∧
    (clearAllSignals st true (.ok ()) s a).2.count
        (.request .GET "/api/analytics") = 1 ∧
    (clearAllSignals st true (.ok ()) s a).2.indexOf
        (.request .DELETE "/api/signals") <
      (clearAllSignals st true (.ok ()) s a).2.indexOf
        (.request .GET "/api/signals") ∧
    (clearAllSignals st true (.ok ()) s a).2.indexOf
        (.request .GET "/api/signals") <
      (clearAllSignals st true (.ok ()) s a).2.indexOf
        (.request .GET "/api/analytics") ∧
    (clearAllSignals st true .failure s a).2.count
        (.request .DELETE "/api/signals") = 1 ∧
    (clearAllSignals st true .failure s a).2.count
        (.request .GET "/api/signals") = 0 ∧
    (clearAllSignals st true .failure s a).2.count
        (.request .GET "/api/analytics") = 0 := by
  cases s <;> cases a <;>
    simp [clearAllSignals, fetchSignals, fetchAnalytics, fetchAnalyticsFinish,
      fetchAnalyticsStart, List.count_cons, List.count_nil,
      List.indexOf, List.findIdx, List.findIdx.go] <;>
    decide

/-- Whether an event is a local file save. -/
def isSaveEvent : Event → Bool
  | .saveFile _ => true
  | _ => false

/-- Counterexample to C9: when the awaited export fetch (or blob read)
    throws, the catch block (App.js lines 143–146) logs and alerts — no
    file save is triggered, contradicting the unconditional "exactly one
    local file save". -/
theorem exportData_failure_no_save_cex :
    (exportData initialViewState "csv" .failure).2 =
      [.request .GET "/api/export/csv",
       .logError "Error exporting csv:",
       .alert "Error exporting csv"] ∧
    (exportData initialViewState "csv" .failure).2.countP isSaveEvent = 0 := by
  decide

/-- C9 (amended): for every format string, `exportData` issues exactly
    one GET to `/api/export/{fmt}` and leaves the whole view state —
    caches and draft included — unchanged in every outcome; on success it
    triggers exactly one file save named `forex_signals.{fmt}`, and on
    failure no save occurs. -/
theorem exportData_effects (st : ViewState) (format : String)
    (r : HttpResult Unit) :
    (exportData st format r).1 = st ∧
    (exportData st format r).2.count
        (.request .GET ("/api/export/" ++ format)) = 1 ∧
    (exportData st format (.ok ())).2.count
        (.saveFile ("forex_signals." ++ format)) = 1 ∧
    (exportData st format .failure).2.countP isSaveEvent = 0 := by
  cases r <;>
    simp [exportData, isSaveEvent, List.count_cons, List.count_nil,
      List.countP_cons, List.countP_nil]
